import Mathlib

/-!
Verification of the Jira sync + snapshot storage engine of this repository
(`jira_integration.py`, `dashboard_server.py`, `config.py`) against its
natural-language specification.

The Python source is shallowly embedded: pure computations become Lean
functions, the filesystem becomes an explicit state record, the stateful
write path becomes an explicit list of state-transforming steps (so that
interruption at any intermediate step is expressible), and the background
refresh loop becomes a step function on a scheduler state.
-/

namespace JiraSync

/- ====================================================================
   Configuration (`config.py` and the `Config` class of
   `jira_integration.py`)
   ==================================================================== -/

/-- `config.JIRA_PROJECT_ID = "10000"` in `config.py`; `Config.JIRA_PROJECT_ID`
reads it via `getattr(config, 'JIRA_PROJECT_ID', 'DP')`. -/
def Config.JIRA_PROJECT_ID : String := "10000"

/-- `Config.JIRA_PROJECT_KEY = "DP"` in `jira_integration.py`. -/
def Config.JIRA_PROJECT_KEY : String := "DP"

/-- `config.JIRA_MAX_RESULTS = 100`, read by `Config.JIRA_MAX_RESULTS`. -/
def Config.JIRA_MAX_RESULTS : Nat := 100

/- ====================================================================
   Dates: model of `JiraClient._parse_date`

   `_parse_date` is `datetime.fromisoformat(date_str.replace('Z', '+00:00'))`
   wrapped in `try/except` that returns `None` on any failure, with an
   up-front `if not date_str: return None` guard.

   `PyDatetime` models a CPython `datetime` value; `utcOffsetMinutes = none`
   models a naive (timezone-unaware) datetime and `some off` a
   timezone-aware one.  `fromisoChars` models `datetime.fromisoformat`
   on the grammar `YYYY-MM-DD[(T| )HH:MM:SS[.fff|.ffffff][±HH:MM]]`, the
   subset the remote's date strings fall into; a failure to parse is the
   `none` branch (the Python call raises `ValueError`, caught by the
   `except` in `_parse_date`).
   ==================================================================== -/

structure PyDatetime where
  year : Nat
  month : Nat
  day : Nat
  hour : Nat
  minute : Nat
  second : Nat
  microsecond : Nat
  utcOffsetMinutes : Option Int
deriving DecidableEq, Repr

/-- Numeric value of a decimal digit character. -/
def digitVal (c : Char) : Option Nat :=
  if '0' ≤ c ∧ c ≤ '9' then some (c.toNat - 48) else none

def twoDigitVal (a b : Char) : Option Nat := do
  let x ← digitVal a
  let y ← digitVal b
  pure (10 * x + y)

def fourDigitVal (a b c d : Char) : Option Nat := do
  let x ← digitVal a
  let y ← digitVal b
  let z ← digitVal c
  let w ← digitVal d
  pure (1000 * x + 100 * y + 10 * z + w)

def isLeapYear (y : Nat) : Bool :=
  (y % 4 == 0 && y % 100 != 0) || y % 400 == 0

/-- Number of days in a month, as validated by CPython's date constructor. -/
def daysInMonth (y m : Nat) : Nat :=
  if m = 2 then (if isLeapYear y then 29 else 28)
  else if m = 4 ∨ m = 6 ∨ m = 9 ∨ m = 11 then 30
  else 31

/-- Parse the mandatory `YYYY-MM-DD` date portion. -/
def parseDatePart : List Char → Option (Nat × Nat × Nat)
  | [y1, y2, y3, y4, s1, m1, m2, s2, d1, d2] =>
    if s1 = '-' ∧ s2 = '-' then do
      let y ← fourDigitVal y1 y2 y3 y4
      let m ← twoDigitVal m1 m2
      let d ← twoDigitVal d1 d2
      if 1 ≤ m ∧ m ≤ 12 ∧ 1 ≤ d ∧ d ≤ daysInMonth y m then pure (y, m, d) else none
    else none
  | _ => none

/-- Fractional seconds: exactly three or six digits, as microseconds. -/
def parseMicroseconds : List Char → Option Nat
  | [a, b, c] => do
    let x ← digitVal a
    let y ← digitVal b
    let z ← digitVal c
    pure ((100 * x + 10 * y + z) * 1000)
  | [a, b, c, d, e, f] => do
    let u ← digitVal a
    let v ← digitVal b
    let w ← digitVal c
    let x ← digitVal d
    let y ← digitVal e
    let z ← digitVal f
    pure (100000 * u + 10000 * v + 1000 * w + 100 * x + 10 * y + z)
  | _ => none

/-- Parse `HH:MM:SS` with optional `.fff` / `.ffffff` fraction. -/
def parseTimePart : List Char → Option (Nat × Nat × Nat × Nat)
  | h1 :: h2 :: c1 :: n1 :: n2 :: c2 :: s1 :: s2 :: rest =>
    if c1 = ':' ∧ c2 = ':' then do
      let h ← twoDigitVal h1 h2
      let n ← twoDigitVal n1 n2
      let s ← twoDigitVal s1 s2
      if h ≤ 23 ∧ n ≤ 59 ∧ s ≤ 59 then
        match rest with
        | [] => pure (h, n, s, 0)
        | '.' :: frac => do
          let us ← parseMicroseconds frac
          pure (h, n, s, us)
        | _ => none
      else none
    else none
  | _ => none

/-- Parse a `HH:MM` UTC-offset body, yielding the signed offset in minutes. -/
def parseOffsetPart (sign : Int) : List Char → Option Int
  | [h1, h2, c, m1, m2] =>
    if c = ':' then do
      let h ← twoDigitVal h1 h2
      let m ← twoDigitVal m1 m2
      if h ≤ 23 ∧ m ≤ 59 then pure (sign * (60 * (h : Int) + m)) else none
    else none
  | _ => none

/-- Split the time portion at the first `+`/`-` sign (the offset separator);
the time-of-day digits and `:`/`.` characters never contain either sign. -/
def splitTz : List Char → List Char × Option (Int × List Char)
  | [] => ([], none)
  | c :: cs =>
    if c = '+' then ([], some (1, cs))
    else if c = '-' then ([], some (-1, cs))
    else
      let r := splitTz cs
      (c :: r.1, r.2)

/-- Model of `datetime.fromisoformat` on the grammar described above. -/
def fromisoChars : List Char → Option PyDatetime
  | y1 :: y2 :: y3 :: y4 :: s1 :: m1 :: m2 :: s2 :: d1 :: d2 :: rest =>
    match parseDatePart [y1, y2, y3, y4, s1, m1, m2, s2, d1, d2] with
    | none => none
    | some (y, m, d) =>
      match rest with
      | [] => some ⟨y, m, d, 0, 0, 0, 0, none⟩
      | sep :: timeRest =>
        if sep = 'T' ∨ sep = ' ' then
          let r := splitTz timeRest
          match parseTimePart r.1 with
          | none => none
          | some (h, n, s, us) =>
            match r.2 with
            | none => some ⟨y, m, d, h, n, s, us, none⟩
            | some (sign, zPart) =>
              match parseOffsetPart sign zPart with
              | none => none
              | some off => some ⟨y, m, d, h, n, s, us, some off⟩
        else none
  | _ => none

def fromisoformat (s : String) : Option PyDatetime :=
  fromisoChars s.toList

/-- `date_str.replace('Z', '+00:00')`: every occurrence of `Z` is replaced. -/
def replaceZChars : List Char → List Char
  | [] => []
  | c :: cs =>
    if c = 'Z' then '+' :: '0' :: '0' :: ':' :: '0' :: '0' :: replaceZChars cs
    else c :: replaceZChars cs

/-- `JiraClient._parse_date`: `None`/empty input gives `None`; otherwise
`fromisoformat` of the `Z`-replaced string, any parse failure giving `None`. -/
def parse_date (s : Option String) : Option PyDatetime :=
  match s with
  | none => none
  | some str => if str = "" then none else fromisoChars (replaceZChars str.toList)

/- ====================================================================
   Issue data model and normalization (`JiraClient.get_all_issues`,
   loop body lines 478–497)

   A raw remote record is `{id, key, fields: {...}}`; `id` and `key` are
   mandatory in the remote's shape (the code indexes them directly), the
   nested fields are optional.  For the nested objects
   (`status`/`priority`/`issuetype`/`assignee`/`reporter`) the code tests
   truthiness of the object and then reads its `name`/`displayName`, so
   the model keeps just that inner string, `none` meaning the object is
   absent or null.
   ==================================================================== -/

structure RawFields where
  summary : Option String
  description : Option String
  statusName : Option String
  priorityName : Option String
  issuetypeName : Option String
  created : Option String
  updated : Option String
  resolutiondate : Option String
  assigneeDisplayName : Option String
  reporterDisplayName : Option String
deriving DecidableEq, Repr

structure RawIssue where
  id : String
  key : String
  fields : RawFields
deriving DecidableEq, Repr

/-- A normalized issue record, as built by the dictionary literal in the
`get_all_issues` loop body. -/
structure Issue where
  id : String
  key : String
  summary : String
  description : String
  status : String
  priority : String
  issuetype : String
  created : Option PyDatetime
  updated : Option PyDatetime
  closed_date : Option PyDatetime
  assignee : String
  reporter : String
  created_by : String
  assigned_to : String
deriving DecidableEq, Repr

/-- The `processed = {...}` dictionary built for each raw issue. -/
def normalizeIssue (issue : RawIssue) : Issue where
  id := issue.id
  key := issue.key
  summary := issue.fields.summary.getD ""
  description := issue.fields.description.getD ""
  status := issue.fields.statusName.getD ""
  priority := issue.fields.priorityName.getD ""
  issuetype := issue.fields.issuetypeName.getD ""
  created := parse_date issue.fields.created
  updated := parse_date issue.fields.updated
  closed_date := parse_date issue.fields.resolutiondate
  assignee := issue.fields.assigneeDisplayName.getD ""
  reporter := issue.fields.reporterDisplayName.getD ""
  created_by := issue.fields.reporterDisplayName.getD ""
  assigned_to := issue.fields.assigneeDisplayName.getD "Unassigned"

/- ====================================================================
   Pagination (`JiraClient.get_all_issues`)

   The remote is a function from the `startAt` offset to the outcome of
   one `GET /rest/api/3/search` call: either a page of raw issues
   (`.ok`) or a raised exception (`.error`, any network/auth/shape
   failure inside the `try`).  The `while True` loop is embedded with a
   fuel parameter; the loop result also carries the number of remote
   calls made, so call counts are provable.
   ==================================================================== -/

inductive FetchError where
  | network
deriving DecidableEq, Repr

/-- One iteration state of the `while True` loop of `get_all_issues`:
`fuel` bounds the number of remaining iterations (the loop itself
terminates by the short-page or error break), `startAt` is the current
offset, `acc` the issues accumulated so far, `calls` the number of
remote calls already made.  Returns the final `issues` list and the
total number of remote calls. -/
def getAllIssuesLoop (remote : Nat → Except FetchError (List RawIssue))
    (maxResults : Nat) :
    Nat → Nat → List Issue → Nat → List Issue × Nat
  | 0, _, acc, calls => (acc, calls)
  | fuel + 1, startAt, acc, calls =>
    match remote startAt with
    | .error _ => (acc, calls + 1)
    | .ok batch =>
      let acc2 := acc ++ batch.map normalizeIssue
      if batch.length < maxResults then (acc2, calls + 1)
      else getAllIssuesLoop remote maxResults fuel (startAt + maxResults) acc2 (calls + 1)

/-- `JiraClient.get_all_issues`: start at offset 0 with nothing
accumulated and no calls made, page size `Config.JIRA_MAX_RESULTS`. -/
def get_all_issues (remote : Nat → Except FetchError (List RawIssue))
    (fuel : Nat) : List Issue × Nat :=
  getAllIssuesLoop remote Config.JIRA_MAX_RESULTS fuel 0 [] 0

/- ====================================================================
   File-system storage (`FileSystemStorage`)

   The filesystem state records the contents of the two canonical files
   (`Config.PROJECTS_FILE`, `Config.ISSUES_FILE`) and the backup
   directory.  A canonical file is `none` when it does not exist,
   `some (.projDoc d)` / `some (.issuesDoc d)` when it holds a complete
   serialized document, and `some .torn` when it has been opened with
   mode `'w'` (which truncates it) but `json.dump` has not yet written
   the complete document — the state a crash mid-write leaves behind.
   ==================================================================== -/

structure ProjectData where
  id : String
  key : String
  name : String
  projectTypeKey : String
deriving DecidableEq, Repr

/-- The project JSON document: `{**project_data, 'last_updated': ...,
'issues_count': ...}`.  Timestamps are carried as the ISO strings
`datetime.now().isoformat()` produces. -/
structure ProjectDoc where
  project : ProjectData
  last_updated : String
  issues_count : Nat
deriving DecidableEq, Repr

/-- The issues JSON document `issues_with_metadata`. -/
structure IssuesDoc where
  project_id : String
  project_key : String
  last_updated : String
  total_issues : Nat
  issues : List Issue
deriving DecidableEq, Repr

inductive FileData where
  | projDoc (doc : ProjectDoc)
  | issuesDoc (doc : IssuesDoc)
  | torn
deriving DecidableEq, Repr

/-- State of the data directory: the two canonical files and the backup
directory (a list of `(file name, content)` pairs, in creation order). -/
structure FS where
  projectsFile : Option FileData
  issuesFile : Option FileData
  backups : List (String × FileData)
deriving DecidableEq, Repr

/-- `FileSystemStorage.create_backup`: for each canonical file that
exists, `os.rename` it into the backup directory under a
timestamp-qualified name (`ts` stands for
`datetime.now().strftime("%Y%m%d_%H%M%S")`).  Projects first, then
issues, exactly as in the source. -/
def create_backup (ts : String) (fs : FS) : FS :=
  let fs1 :=
    match fs.projectsFile with
    | none => fs
    | some d =>
      { fs with
        projectsFile := none
        backups := fs.backups ++ [("projects_" ++ ts ++ ".json", d)] }
  match fs1.issuesFile with
  | none => fs1
  | some d =>
    { fs1 with
      issuesFile := none
      backups := fs1.backups ++ [("issues_" ++ ts ++ ".json", d)] }

/-- The project document `save_issues` serializes. -/
def projectWithTimestamp (project : ProjectData) (issues : List Issue)
    (now : String) : ProjectDoc :=
  ⟨project, now, issues.length⟩

/-- The issues document `save_issues` serializes. -/
def issuesWithMetadata (project : ProjectData) (issues : List Issue)
    (now : String) : IssuesDoc :=
  ⟨project.id, project.key, now, issues.length, issues⟩

/-- The filesystem-mutating steps of `FileSystemStorage.save_issues`, in
program order (`now` stands for `datetime.now().isoformat()`):
1. `open(Config.PROJECTS_FILE, 'w')` — truncates the canonical projects
   file, leaving it torn;
2. `json.dump(project_with_timestamp, f, ...)` — completes it;
3. `open(Config.ISSUES_FILE, 'w')` — truncates the canonical issues file;
4. `json.dump(issues_with_metadata, f, ...)` — completes it.
No step touches the backup directory and no step writes to a temporary
location: both writes go directly to the canonical paths. -/
def saveIssuesSteps (project : ProjectData) (issues : List Issue)
    (now : String) : List (FS → FS) :=
  [ fun fs => { fs with projectsFile := some .torn },
    fun fs =>
      { fs with projectsFile := some (.projDoc (projectWithTimestamp project issues now)) },
    fun fs => { fs with issuesFile := some .torn },
    fun fs =>
      { fs with issuesFile := some (.issuesDoc (issuesWithMetadata project issues now)) } ]

def runSteps (steps : List (FS → FS)) (fs : FS) : FS :=
  steps.foldl (fun s f => f s) fs

/-- `FileSystemStorage.save_issues` run to completion. -/
def save_issues (project : ProjectData) (issues : List Issue) (now : String)
    (fs : FS) : FS :=
  runSteps (saveIssuesSteps project issues now) fs

/-- `save_issues` interrupted after its first `k` filesystem-mutating
steps (crash / process kill at that point). -/
def saveInterruptedAt (k : Nat) (project : ProjectData) (issues : List Issue)
    (now : String) (fs : FS) : FS :=
  runSteps ((saveIssuesSteps project issues now).take k) fs

/-- `FileSystemStorage.load_issues`: `None` when the canonical issues
file does not exist; the parsed document when it holds one; `None` when
reading it raises (torn file, or a file that does not parse as the
issues document) — the `except` clause returns `None`. -/
def load_issues (fs : FS) : Option IssuesDoc :=
  match fs.issuesFile with
  | none => none
  | some (.issuesDoc d) => some d
  | some _ => none

/-- `FileSystemStorage.load_project`, analogously. -/
def load_project (fs : FS) : Option ProjectDoc :=
  match fs.projectsFile with
  | none => none
  | some (.projDoc d) => some d
  | some _ => none

/- ====================================================================
   Statistics (`FileSystemStorage.get_stats`)
   ==================================================================== -/

/-- ASCII lower-casing of one character, the fragment of Python's
`str.lower` the status names exercise. -/
def charLower (c : Char) : Char :=
  if 'A' ≤ c ∧ c ≤ 'Z' then Char.ofNat (c.toNat + 32) else c

/-- Python's `str.lower()` (on ASCII text, which all configured status
names are). -/
def pyLower (s : String) : String := ⟨s.data.map charLower⟩

structure Stats where
  total_issues : Nat
  active_issues : Nat
  closed_issues : Nat
  todo_issues : Nat
  last_updated : String
deriving DecidableEq, Repr

/-- The literal status sets of `get_stats` (already lower-case in the
source). -/
def activeStatuses : List String := ["in progress", "open", "reopened"]

def closedStatuses : List String := ["closed", "resolved", "done"]

/-- `FileSystemStorage.get_stats`: load the issues document and count
per bucket by case-insensitive membership. -/
def get_stats (fs : FS) : Option Stats :=
  match load_issues fs with
  | none => none
  | some data =>
    some
      { total_issues := data.issues.length
        active_issues := data.issues.countP (fun i => activeStatuses.contains (pyLower i.status))
        closed_issues := data.issues.countP (fun i => closedStatuses.contains (pyLower i.status))
        todo_issues := data.issues.countP (fun i => pyLower i.status == "to do")
        last_updated := data.last_updated }

/- ====================================================================
   Orchestrator (`main`, lines 600–624)

   One sync cycle against file-system storage.  `projectResult` is the
   value returned by `jira.get_project()` (`none` when both the lookup
   by id and the lookup by key failed); the issue fetch is the embedded
   `get_all_issues`.  The cycle:
   - substitutes the hard-coded fallback project when the lookup failed,
   - aborts with no write when the fetched issue list is empty
     (`if not issues: ... return`),
   - otherwise saves project and issues via `save_issues`.
   ==================================================================== -/

/-- The fallback project dictionary built in `main` when
`jira.get_project()` returned nothing. -/
def fallbackProject : ProjectData :=
  ⟨Config.JIRA_PROJECT_ID, Config.JIRA_PROJECT_KEY, "Donation Platform", "software"⟩

def mainCycle (projectResult : Option ProjectData)
    (remote : Nat → Except FetchError (List RawIssue)) (fuel : Nat)
    (now : String) (fs : FS) : FS :=
  let project :=
    match projectResult with
    | some p => p
    | none => fallbackProject
  let issues := (get_all_issues remote fuel).1
  if issues.isEmpty then fs
  else save_issues project issues now fs

/- ====================================================================
   Storage selector (`MYSQL_AVAILABLE`, `Config.USE_DATABASE`,
   `StorageFactory.create_storage`)
   ==================================================================== -/

inductive StorageKind where
  | database
  | fileSystem
deriving DecidableEq, Repr

/-- `Config.USE_DATABASE = os.getenv('USE_DATABASE', 'false').lower() ==
'true' and MYSQL_AVAILABLE`.  `envVar` is the raw value of the
`USE_DATABASE` environment variable (`none` when unset);
`mysqlAvailable` is the `MYSQL_AVAILABLE` flag set by the import
attempt at module load. -/
def useDatabase (envVar : Option String) (mysqlAvailable : Bool) : Bool :=
  (pyLower (envVar.getD "false") == "true") && mysqlAvailable

/-- `StorageFactory.create_storage`. -/
def create_storage (envVar : Option String) (mysqlAvailable : Bool) : StorageKind :=
  if useDatabase envVar mysqlAvailable then .database else .fileSystem

/- ====================================================================
   Refresh scheduler (`dashboard_server.auto_refresh_jira` and
   `run_jira_fetch`)

   The background thread runs a single sequential loop:
     while not stop_refresh:
         for _ in range(300):        -- one-second sleeps
             if stop_refresh: return
             time.sleep(1)
         if not stop_refresh:
             run_jira_fetch()        -- blocking subprocess.run
   One step of the model is one observable action of that thread: a
   check of the `while` condition, one iteration of the wait loop, the
   pre-fetch check, or one tick while the blocking fetch is in flight.
   The environment supplies, at each step, the current value of the
   `stop_refresh` flag (written by the main thread) and whether an
   in-flight fetch returns during this tick.
   ==================================================================== -/

inductive SchedState where
  /-- About to test the `while not stop_refresh` condition. -/
  | topCheck
  /-- Inside the wait loop with `k` one-second sleeps remaining;
  at `waiting 0` the next action is the `if not stop_refresh` test
  guarding `run_jira_fetch()`. -/
  | waiting (k : Nat)
  /-- `run_jira_fetch()` (the blocking `subprocess.run`) is in flight. -/
  | running
  /-- The thread function returned. -/
  | stopped
deriving DecidableEq, Repr

structure SchedEnv where
  stopFlag : Bool
  fetchReturns : Bool
deriving DecidableEq, Repr

def schedStep (s : SchedState) (env : SchedEnv) : SchedState :=
  match s with
  | .topCheck => if env.stopFlag then .stopped else .waiting 300
  | .waiting (k + 1) => if env.stopFlag then .stopped else .waiting k
  | .waiting 0 => if env.stopFlag then .stopped else .running
  | .running => if env.fetchReturns then .topCheck else .running
  | .stopped => .stopped

/-- The thread's trace under an environment schedule: state after `n`
steps, starting at the `while` check. -/
def schedRun (envs : Nat → SchedEnv) : Nat → SchedState
  | 0 => .topCheck
  | n + 1 => schedStep (schedRun envs n) (envs n)

/-- Number of orchestrator sync cycles in flight in a scheduler state. -/
def inFlight : SchedState → Nat
  | .running => 1
  | _ => 0

/- ====================================================================
   Concrete fixtures for witnesses, counterexamples and the spec's
   worked test cases.
   ==================================================================== -/

def emptyFields : RawFields := ⟨none, none, none, none, none, none, none, none, none, none⟩

/-- A minimal raw remote record (`id`/`key` only, every nested field
absent). -/
def dummyRaw (n : Nat) : RawIssue := ⟨toString n, "DP-" ++ toString n, emptyFields⟩

/-- Mock remote of the spec's first pagination test: pages of sizes
100, 100, 37 at offsets 0, 100, 200. -/
def mock237 : Nat → Except FetchError (List RawIssue) := fun startAt =>
  if startAt = 0 then .ok ((List.range 100).map dummyRaw)
  else if startAt = 100 then .ok ((List.range 100).map (fun n => dummyRaw (100 + n)))
  else if startAt = 200 then .ok ((List.range 37).map (fun n => dummyRaw (200 + n)))
  else .ok []

/-- Mock remote of the spec's second pagination test: pages of sizes
100, 100, 100, 0. -/
def mock300 : Nat → Except FetchError (List RawIssue) := fun startAt =>
  if startAt = 0 then .ok ((List.range 100).map dummyRaw)
  else if startAt = 100 then .ok ((List.range 100).map (fun n => dummyRaw (100 + n)))
  else if startAt = 200 then .ok ((List.range 100).map (fun n => dummyRaw (200 + n)))
  else .ok []

/-- Mock remote that serves two full pages and then fails. -/
def mockFail : Nat → Except FetchError (List RawIssue) := fun startAt =>
  if startAt = 0 then .ok ((List.range 100).map dummyRaw)
  else if startAt = 100 then .ok ((List.range 100).map (fun n => dummyRaw (100 + n)))
  else .error .network

/-- Mock remote whose first page is already empty. -/
def mockEmpty : Nat → Except FetchError (List RawIssue) := fun _ => .ok []

/-- Mock remote with a single short page of one issue. -/
def mockOne : Nat → Except FetchError (List RawIssue) := fun _ => .ok [dummyRaw 0]

/-- An issue whose only distinguishing field is its status name. -/
def mkStatusIssue (s : String) : Issue :=
  ⟨"1", "DP-1", "", "", s, "", "", none, none, none, "", "", "", ""⟩

/-- The spec's statistics test snapshot: stored statuses
`["Open", "Done", "done", "UNKNOWN_STATUS", "To Do"]`. -/
def demoDoc : IssuesDoc :=
  ⟨"10000", "DP", "t0", 5, ["Open", "Done", "done", "UNKNOWN_STATUS", "To Do"].map mkStatusIssue⟩

def demoFS : FS := ⟨none, some (.issuesDoc demoDoc), []⟩

/-- A committed prior snapshot: one issue, stamped `t0`. -/
def oldDoc : IssuesDoc := ⟨"10000", "DP", "t0", 1, [mkStatusIssue "Open"]⟩

def oldProjDoc : ProjectDoc := ⟨⟨"10000", "DP", "Donation Platform", "software"⟩, "t0", 1⟩

/-- Filesystem state with the prior snapshot committed and no backups. -/
def fs0 : FS := ⟨some (.projDoc oldProjDoc), some (.issuesDoc oldDoc), []⟩

def newProj : ProjectData := ⟨"10000", "DP", "Donation Platform", "software"⟩

def newIssues : List Issue := [mkStatusIssue "Done", mkStatusIssue "Open"]

/- ====================================================================
   Theorems
   ==================================================================== -/

/-- C10: if the MySQL connector module is unavailable at import time
(`MYSQL_AVAILABLE = False`), `StorageFactory.create_storage` constructs
the file-system sink for every value of the `USE_DATABASE` environment
variable — including `"true"` — so the database setting is silently
ignored rather than an error. -/
theorem mysql_unavailable_forces_filesystem :
    (∀ envVar : Option String, create_storage envVar false = .fileSystem) ∧
    create_storage (some "true") false = .fileSystem := by
  refine ⟨fun envVar => ?_, rfl⟩
  simp [create_storage, useDatabase]

set_option maxRecDepth 100000 in
/-- C5: pagination starts at offset 0 with page size 100, advances the
offset by the page size after each full page, and stops exactly when a
page returns fewer items than the page size; the mock remote with pages
of sizes 100, 100, 37 yields 237 issues in 3 calls, and the one with
pages 100, 100, 100, 0 makes 4 calls. -/
theorem pagination_termination
    (remote : Nat → Except FetchError (List RawIssue)) (fuel startAt : Nat)
    (acc : List Issue) (calls : Nat) (batch : List RawIssue)
    (h : remote startAt = .ok batch) :
    (∀ r f, get_all_issues r f = getAllIssuesLoop r 100 f 0 [] 0) ∧
    (batch.length < 100 →
      getAllIssuesLoop remote 100 (fuel + 1) startAt acc calls
        = (acc ++ batch.map normalizeIssue, calls + 1)) ∧
    (100 ≤ batch.length →
      getAllIssuesLoop remote 100 (fuel + 1) startAt acc calls
        = getAllIssuesLoop remote 100 fuel (startAt + 100)
            (acc ++ batch.map normalizeIssue) (calls + 1)) ∧
    ((get_all_issues mock237 10).1.length = 237 ∧ (get_all_issues mock237 10).2 = 3) ∧
    ((get_all_issues mock300 10).1.length = 300 ∧ (get_all_issues mock300 10).2 = 4) := by
  refine ⟨fun r f => rfl, fun hlt => ?_, fun hge => ?_, by decide, by decide⟩
  · simp [getAllIssuesLoop, h, hlt]
  · simp [getAllIssuesLoop, h, Nat.not_lt.mpr hge]

/-- C5 witness: the spec's first mock remote makes exactly 3 calls. -/
theorem pagination_termination_witness :
    (get_all_issues mock237 10).2 = 3 :=
  (pagination_termination mock237 9 0 [] 0 ((List.range 100).map dummyRaw)
    rfl).2.2.2.1.2

set_option maxRecDepth 100000 in
/-- C7: a failed remote call during pagination neither raises nor
retries: the loop stops after that one failed call and returns exactly
the issues accumulated from the pages completed before the failure. -/
theorem fetch_failure_partial_result
    (remote : Nat → Except FetchError (List RawIssue)) (maxResults fuel startAt : Nat)
    (acc : List Issue) (calls : Nat) (e : FetchError)
    (h : remote startAt = .error e) :
    getAllIssuesLoop remote maxResults (fuel + 1) startAt acc calls = (acc, calls + 1) ∧
    ((get_all_issues mockFail 10).1.length = 200 ∧ (get_all_issues mockFail 10).2 = 3) := by
  refine ⟨?_, by decide⟩
  simp [getAllIssuesLoop, h]

/-- C7 witness: the loop, reaching the failing offset of `mockFail` with
two pages accumulated elsewhere, returns that accumulation unchanged
after exactly one more call. -/
theorem fetch_failure_partial_result_witness :
    getAllIssuesLoop mockFail 100 1 200 [mkStatusIssue "Open"] 2
      = ([mkStatusIssue "Open"], 3) :=
  (fetch_failure_partial_result mockFail 100 0 200 [mkStatusIssue "Open"] 2
    .network rfl).1

/-- C3: a sync cycle whose issue fetch returns an empty sequence
performs no snapshot write: the filesystem — in particular an existing
non-empty snapshot — is left unchanged, and `load_issues` (and the
statistics derived from it) after such a cycle still return the prior
snapshot. -/
theorem empty_fetch_no_write
    (projectResult : Option ProjectData)
    (remote : Nat → Except FetchError (List RawIssue)) (fuel : Nat)
    (now : String) (fs : FS)
    (h : (get_all_issues remote fuel).1 = []) :
    mainCycle projectResult remote fuel now fs = fs ∧
    load_issues (mainCycle projectResult remote fuel now fs) = load_issues fs ∧
    get_stats (mainCycle projectResult remote fuel now fs) = get_stats fs := by
  have hfs : mainCycle projectResult remote fuel now fs = fs := by
    simp [mainCycle, h]
  exact ⟨hfs, by rw [hfs], by rw [hfs]⟩

/-- C3 witness: against a remote whose first page is empty, a cycle over
the committed one-issue snapshot leaves it untouched. -/
theorem empty_fetch_no_write_witness :
    mainCycle none mockEmpty 1 "t1" fs0 = fs0 ∧
    load_issues (mainCycle none mockEmpty 1 "t1" fs0) = load_issues fs0 ∧
    get_stats (mainCycle none mockEmpty 1 "t1" fs0) = get_stats fs0 :=
  empty_fetch_no_write none mockEmpty 1 "t1" fs0 rfl

/-- C6: when the project lookup failed for both the numeric id and the
key (`get_project` returned `None`), the cycle does not abort: it
substitutes the fallback project built from the configured id `"10000"`,
key `"DP"` and name `"Donation Platform"`, proceeds to fetch issues, and
persists that fallback project. -/
theorem fallback_project_persisted
    (remote : Nat → Except FetchError (List RawIssue)) (fuel : Nat)
    (now : String) (fs : FS)
    (h : (get_all_issues remote fuel).1 ≠ []) :
    mainCycle none remote fuel now fs
      = save_issues fallbackProject (get_all_issues remote fuel).1 now fs ∧
    load_project (mainCycle none remote fuel now fs)
      = some ⟨fallbackProject, now, (get_all_issues remote fuel).1.length⟩ ∧
    fallbackProject = ⟨"10000", "DP", "Donation Platform", "software"⟩ := by
  have hne : ((get_all_issues remote fuel).1).isEmpty = false := by
    cases hl : (get_all_issues remote fuel).1 with
    | nil => exact absurd hl h
    | cons a l => rfl
  refine ⟨by simp [mainCycle, hne], ?_, rfl⟩
  simp [mainCycle, hne, save_issues, runSteps, saveIssuesSteps, load_project,
    projectWithTimestamp]

/-- C6 witness: with both lookups failed and a one-issue fetch, the
cycle persists the fallback project. -/
theorem fallback_project_persisted_witness :
    mainCycle none mockOne 1 "t1" fs0
      = save_issues fallbackProject (get_all_issues mockOne 1).1 "t1" fs0 ∧
    load_project (mainCycle none mockOne 1 "t1" fs0)
      = some ⟨fallbackProject, "t1", (get_all_issues mockOne 1).1.length⟩ ∧
    fallbackProject = ⟨"10000", "DP", "Donation Platform", "software"⟩ :=
  fallback_project_persisted mockOne 1 "t1" fs0 (by decide)

/-- C2 counterexample: the claim "every write first archives the
currently-committed snapshot to the backup area and only then publishes
the new files" is false of the code: `save_issues` is not preceded by
any call to `create_backup` — running a write over the committed
snapshot `fs0` replaces the old issues document in place and leaves the
backup area empty, the prior snapshot archived nowhere. -/
theorem write_without_backup_counterexample :
    (save_issues newProj newIssues "t1" fs0).backups = [] ∧
    fs0.issuesFile = some (.issuesDoc oldDoc) ∧
    (save_issues newProj newIssues "t1" fs0).issuesFile ≠ some (.issuesDoc oldDoc) ∧
    ∀ p ∈ (save_issues newProj newIssues "t1" fs0).backups,
      p.2 ≠ .issuesDoc oldDoc := by decide

/-- C2 amended: `FileSystemStorage` does provide a `create_backup`
operation that renames the committed files into the backup area under
timestamp-qualified names, but `save_issues` never invokes it: a write
leaves the backup area exactly as it was and overwrites the prior
snapshot in place. -/
theorem backup_dead_code_semantics
    (project : ProjectData) (issues : List Issue) (now ts : String) (fs : FS)
    (dp di : FileData)
    (hp : fs.projectsFile = some dp) (hi : fs.issuesFile = some di) :
    (save_issues project issues now fs).backups = fs.backups ∧
    (create_backup ts fs).backups
      = fs.backups ++ [("projects_" ++ ts ++ ".json", dp), ("issues_" ++ ts ++ ".json", di)] ∧
    (create_backup ts fs).projectsFile = none ∧
    (create_backup ts fs).issuesFile = none := by
  refine ⟨by simp [save_issues, runSteps, saveIssuesSteps], ?_, ?_, ?_⟩ <;>
    simp [create_backup, hp, hi]

/-- C2 witness: the dead-code archive semantics and the no-archive write
at the concrete committed snapshot `fs0`. -/
theorem backup_dead_code_semantics_witness :
    (save_issues newProj newIssues "t1" fs0).backups = fs0.backups ∧
    (create_backup "20240101_000000" fs0).backups
      = fs0.backups ++ [("projects_20240101_000000.json", .projDoc oldProjDoc),
          ("issues_20240101_000000.json", .issuesDoc oldDoc)] ∧
    (create_backup "20240101_000000" fs0).projectsFile = none ∧
    (create_backup "20240101_000000" fs0).issuesFile = none :=
  backup_dead_code_semantics newProj newIssues "t1" "20240101_000000" fs0
    (.projDoc oldProjDoc) (.issuesDoc oldDoc) rfl rfl

/-- C9: the refresh loop is a single sequential thread: at most one
orchestrator cycle is in flight at any instant; a new cycle starts only
at the trigger point reached after a full 300-second wait (while a cycle
is running the only transitions are to keep running or to return to the
loop head, so an elapsed interval is skipped, never queued or run
concurrently); once the stop flag is set no step starts a new cycle; and
from the loop head the wait is 300 one-second, stop-checked sleeps. -/
theorem scheduler_non_reentrant
    (envs : Nat → SchedEnv) (n : Nat) (s : SchedState) (env : SchedEnv)
    (hstop : env.stopFlag = true) :
    inFlight (schedRun envs n) ≤ 1 ∧
    (∀ s2 e2, schedStep s2 e2 = .running → s2 = .running ∨ s2 = .waiting 0) ∧
    (∀ e2 : SchedEnv, schedStep .running e2 = .running ∨ schedStep .running e2 = .topCheck) ∧
    (schedStep s env = .running → s = .running) ∧
    schedStep .topCheck ⟨false, env.fetchReturns⟩ = .waiting 300 := by
  refine ⟨?_, ?_, ?_, ?_, rfl⟩
  · cases schedRun envs n <;> simp [inFlight]
  · intro s2 e2 h
    cases s2 with
    | topCheck => cases hf : e2.stopFlag <;> simp [schedStep, hf] at h
    | waiting k =>
      cases k with
      | zero => exact Or.inr rfl
      | succ k => cases hf : e2.stopFlag <;> simp [schedStep, hf] at h
    | running => exact Or.inl rfl
    | stopped => simp [schedStep] at h
  · intro e2
    cases hf : e2.fetchReturns <;> simp [schedStep, hf]
  · intro h
    cases s with
    | topCheck => simp [schedStep, hstop] at h
    | waiting k => cases k <;> simp [schedStep, hstop] at h
    | running => rfl
    | stopped => simp [schedStep] at h

/-- C9 witness: with the stop flag set, the step at the trigger point
stops the loop instead of starting a cycle. -/
theorem scheduler_non_reentrant_witness :
    inFlight (schedRun (fun _ => ⟨true, false⟩) 1) ≤ 1 ∧
    (∀ s2 e2, schedStep s2 e2 = .running → s2 = .running ∨ s2 = .waiting 0) ∧
    (∀ e2 : SchedEnv, schedStep .running e2 = .running ∨ schedStep .running e2 = .topCheck) ∧
    (schedStep (.waiting 0) ⟨true, false⟩ = .running → SchedState.waiting 0 = .running) ∧
    schedStep .topCheck ⟨false, false⟩ = .waiting 300 :=
  scheduler_non_reentrant (fun _ => ⟨true, false⟩) 1 (.waiting 0) ⟨true, false⟩ rfl

/-- C4: `get_stats` classifies each stored status case-insensitively
into at most one of the active/closed/todo buckets (the three
classification sets are pairwise disjoint), statuses matching none count
only toward the total, and on the stored statuses
`["Open", "Done", "done", "UNKNOWN_STATUS", "To Do"]` it returns
`total=5, active=1, closed=2, todo=1`. -/
theorem statistics_classification :
    (∀ s : String,
      ¬(activeStatuses.contains (pyLower s) = true ∧
        closedStatuses.contains (pyLower s) = true) ∧
      ¬(activeStatuses.contains (pyLower s) = true ∧ pyLower s = "to do") ∧
      ¬(closedStatuses.contains (pyLower s) = true ∧ pyLower s = "to do")) ∧
    get_stats demoFS = some ⟨5, 1, 2, 1, "t0"⟩ := by
  refine ⟨fun s => ?_, by decide⟩
  generalize pyLower s = t
  refine ⟨?_, ?_, ?_⟩ <;> rintro ⟨h1, h2⟩ <;>
    simp [activeStatuses, closedStatuses] at h1 h2 <;>
    rcases h1 with h1 | h1 | h1 <;> subst h1 <;> simp_all

/-- C1 counterexample: the write protocol is not atomic.  `save_issues`
truncates the canonical issues file in place (step 3, the `open` with
mode `'w'`) before writing the new document, so interrupting the write
there leaves the canonical path holding a torn file — neither the old
snapshot (still committed beforehand) nor the new one is fully present,
and a subsequent `load_issues` returns `None`, not either snapshot. -/
theorem torn_snapshot_counterexample :
    load_issues fs0 = some oldDoc ∧
    (saveInterruptedAt 3 newProj newIssues "t1" fs0).issuesFile = some .torn ∧
    (saveInterruptedAt 3 newProj newIssues "t1" fs0).issuesFile
      ≠ some (.issuesDoc oldDoc) ∧
    (saveInterruptedAt 3 newProj newIssues "t1" fs0).issuesFile
      ≠ some (.issuesDoc (issuesWithMetadata newProj newIssues "t1")) ∧
    load_issues (saveInterruptedAt 3 newProj newIssues "t1" fs0) = none := by
  decide

/-- C1 amended: `save_issues` writes both canonical files in place with
truncating opens — no temporary location and no atomic rename — so a
write interrupted mid-step can leave a torn document at the canonical
path rather than "old fully present or new fully present".  What does
hold: a reader never parses a torn snapshot — at every interruption
point `load_issues` returns the old document, the new document, or
`None` (the parse error is caught) — and an uninterrupted write leaves
the new snapshot fully present. -/
theorem interrupted_write_read_states
    (project : ProjectData) (issues : List Issue) (now : String) (fs : FS)
    (old : IssuesDoc) (hold : fs.issuesFile = some (.issuesDoc old)) (k : Nat) :
    (load_issues (saveInterruptedAt k project issues now fs) = some old ∨
     load_issues (saveInterruptedAt k project issues now fs)
       = some (issuesWithMetadata project issues now) ∨
     load_issues (saveInterruptedAt k project issues now fs) = none) ∧
    save_issues project issues now fs = saveInterruptedAt 4 project issues now fs ∧
    load_issues (save_issues project issues now fs)
      = some (issuesWithMetadata project issues now) := by
  refine ⟨?_, rfl, by simp [save_issues, runSteps, saveIssuesSteps, load_issues]⟩
  rcases k with _ | _ | _ | _ | n
  · exact Or.inl (by simp [saveInterruptedAt, saveIssuesSteps, runSteps, load_issues, hold])
  · exact Or.inl (by simp [saveInterruptedAt, saveIssuesSteps, runSteps, load_issues, hold])
  · exact Or.inl (by simp [saveInterruptedAt, saveIssuesSteps, runSteps, load_issues, hold])
  · exact Or.inr (Or.inr (by simp [saveInterruptedAt, saveIssuesSteps, runSteps, load_issues]))
  · exact Or.inr (Or.inl (by simp [saveInterruptedAt, saveIssuesSteps, runSteps, load_issues]))

/-- C1 witness: the amended statement at the concrete committed snapshot
`fs0`, interrupted right after the truncating open of the issues file. -/
theorem interrupted_write_read_states_witness :
    (load_issues (saveInterruptedAt 3 newProj newIssues "t1" fs0) = some oldDoc ∨
     load_issues (saveInterruptedAt 3 newProj newIssues "t1" fs0)
       = some (issuesWithMetadata newProj newIssues "t1") ∨
     load_issues (saveInterruptedAt 3 newProj newIssues "t1" fs0) = none) ∧
    save_issues newProj newIssues "t1" fs0 = saveInterruptedAt 4 newProj newIssues "t1" fs0 ∧
    load_issues (save_issues newProj newIssues "t1" fs0)
      = some (issuesWithMetadata newProj newIssues "t1") :=
  interrupted_write_read_states newProj newIssues "t1" fs0 oldDoc rfl 3

/- Helper lemmas for the date-parsing theorem. -/

lemma digitVal_ne_special {c : Char} {v : Nat} (h : digitVal c = some v) :
    c ≠ 'Z' ∧ c ≠ '+' ∧ c ≠ '-' := by
  refine ⟨?_, ?_, ?_⟩ <;> rintro rfl <;> simp [digitVal] at h

lemma replaceZ_cons_digit {c : Char} {v : Nat} (h : digitVal c = some v) (cs : List Char) :
    replaceZChars (c :: cs) = c :: replaceZChars cs := by
  simp [replaceZChars, (digitVal_ne_special h).1]

lemma replaceZ_cons_ne (c : Char) {cs : List Char} (h : ¬ c = 'Z') :
    replaceZChars (c :: cs) = c :: replaceZChars cs := by
  simp [replaceZChars, h]

lemma splitTz_cons_digit {c : Char} {v : Nat} (h : digitVal c = some v) (cs : List Char) :
    splitTz (c :: cs) = ((c :: (splitTz cs).1), (splitTz cs).2) := by
  obtain ⟨-, h2, h3⟩ := digitVal_ne_special h
  simp [splitTz, h2, h3]

lemma splitTz_cons_ne (c : Char) {cs : List Char} (h1 : ¬ c = '+') (h2 : ¬ c = '-') :
    splitTz (c :: cs) = ((c :: (splitTz cs).1), (splitTz cs).2) := by
  simp [splitTz, h1, h2]

lemma twoDigitVal_eq {a b : Char} {x y : Nat}
    (ha : digitVal a = some x) (hb : digitVal b = some y) :
    twoDigitVal a b = some (10 * x + y) := by
  simp [twoDigitVal, ha, hb]

lemma fourDigitVal_eq {a b c d : Char} {x y z w : Nat}
    (ha : digitVal a = some x) (hb : digitVal b = some y)
    (hc : digitVal c = some z) (hd : digitVal d = some w) :
    fourDigitVal a b c d = some (1000 * x + 100 * y + 10 * z + w) := by
  simp [fourDigitVal, ha, hb, hc, hd]

/-- C8 counterexample: a raw record with no assignee normalizes with
`assignee = ""`, not `"Unassigned"` — the `"Unassigned"` default goes to
the separate `assigned_to` display alias. -/
theorem missing_assignee_counterexample :
    (normalizeIssue ⟨"1", "DP-1", emptyFields⟩).assignee = "" ∧
    (normalizeIssue ⟨"1", "DP-1", emptyFields⟩).assignee ≠ "Unassigned" ∧
    (normalizeIssue ⟨"1", "DP-1", emptyFields⟩).assigned_to = "Unassigned" := by
  decide

/-- C8 amended: normalization is total and never fails; a missing
status, priority, or issue-type yields the empty string; a missing
assignee display name yields the empty string in the `assignee` field
and `"Unassigned"` in the `assigned_to` display alias; each date field
in the ISO-8601-with-`Z` form (any digits in valid calendar/time
ranges) yields a timezone-aware timestamp with UTC offset 0, while an
absent, empty, or unparseable date yields `None` rather than an
error. -/
theorem normalization_total_defaults
    (raw : RawIssue)
    (c1 c2 c3 c4 c5 c6 c7 c8 c9 c10 c11 c12 c13 c14 : Char)
    (v1 v2 v3 v4 v5 v6 v7 v8 v9 v10 v11 v12 v13 v14 : Nat)
    (hc1 : digitVal c1 = some v1) (hc2 : digitVal c2 = some v2)
    (hc3 : digitVal c3 = some v3) (hc4 : digitVal c4 = some v4)
    (hc5 : digitVal c5 = some v5) (hc6 : digitVal c6 = some v6)
    (hc7 : digitVal c7 = some v7) (hc8 : digitVal c8 = some v8)
    (hc9 : digitVal c9 = some v9) (hc10 : digitVal c10 = some v10)
    (hc11 : digitVal c11 = some v11) (hc12 : digitVal c12 = some v12)
    (hc13 : digitVal c13 = some v13) (hc14 : digitVal c14 = some v14)
    (hmo : 1 ≤ 10 * v5 + v6 ∧ 10 * v5 + v6 ≤ 12)
    (hda : 1 ≤ 10 * v7 + v8 ∧
      10 * v7 + v8 ≤ daysInMonth (1000 * v1 + 100 * v2 + 10 * v3 + v4) (10 * v5 + v6))
    (hho : 10 * v9 + v10 ≤ 23) (hmi : 10 * v11 + v12 ≤ 59) (hse : 10 * v13 + v14 ≤ 59) :
    (raw.fields.statusName = none → (normalizeIssue raw).status = "") ∧
    (raw.fields.priorityName = none → (normalizeIssue raw).priority = "") ∧
    (raw.fields.issuetypeName = none → (normalizeIssue raw).issuetype = "") ∧
    (raw.fields.assigneeDisplayName = none →
      (normalizeIssue raw).assignee = "" ∧ (normalizeIssue raw).assigned_to = "Unassigned") ∧
    parse_date none = none ∧
    parse_date (some "") = none ∧
    parse_date (some "not-a-date") = none ∧
    parse_date (some ⟨[c1, c2, c3, c4, '-', c5, c6, '-', c7, c8, 'T',
        c9, c10, ':', c11, c12, ':', c13, c14, 'Z']⟩)
      = some ⟨1000 * v1 + 100 * v2 + 10 * v3 + v4, 10 * v5 + v6, 10 * v7 + v8,
          10 * v9 + v10, 10 * v11 + v12, 10 * v13 + v14, 0, some 0⟩ := by
  refine ⟨fun h => by simp [normalizeIssue, h], fun h => by simp [normalizeIssue, h],
    fun h => by simp [normalizeIssue, h],
    fun h => ⟨by simp [normalizeIssue, h], by simp [normalizeIssue, h]⟩,
    rfl, by decide, by decide, ?_⟩
  have hne : (⟨[c1, c2, c3, c4, '-', c5, c6, '-', c7, c8, 'T',
      c9, c10, ':', c11, c12, ':', c13, c14, 'Z']⟩ : String) ≠ "" := by
    simp [String.ext_iff]
  have hrep : replaceZChars [c1, c2, c3, c4, '-', c5, c6, '-', c7, c8, 'T',
      c9, c10, ':', c11, c12, ':', c13, c14, 'Z']
      = [c1, c2, c3, c4, '-', c5, c6, '-', c7, c8, 'T',
         c9, c10, ':', c11, c12, ':', c13, c14, '+', '0', '0', ':', '0', '0'] := by
    rw [replaceZ_cons_digit hc1, replaceZ_cons_digit hc2, replaceZ_cons_digit hc3,
      replaceZ_cons_digit hc4, replaceZ_cons_ne '-' (by decide),
      replaceZ_cons_digit hc5, replaceZ_cons_digit hc6, replaceZ_cons_ne '-' (by decide),
      replaceZ_cons_digit hc7, replaceZ_cons_digit hc8, replaceZ_cons_ne 'T' (by decide),
      replaceZ_cons_digit hc9, replaceZ_cons_digit hc10, replaceZ_cons_ne ':' (by decide),
      replaceZ_cons_digit hc11, replaceZ_cons_digit hc12, replaceZ_cons_ne ':' (by decide),
      replaceZ_cons_digit hc13, replaceZ_cons_digit hc14]
    rfl
  have hdate : parseDatePart [c1, c2, c3, c4, '-', c5, c6, '-', c7, c8]
      = some (1000 * v1 + 100 * v2 + 10 * v3 + v4, 10 * v5 + v6, 10 * v7 + v8) := by
    simp [parseDatePart, fourDigitVal_eq hc1 hc2 hc3 hc4, twoDigitVal_eq hc5 hc6,
      twoDigitVal_eq hc7 hc8, hmo.1, hmo.2, hda.1, hda.2]
  have hsplit : splitTz [c9, c10, ':', c11, c12, ':', c13, c14, '+', '0', '0', ':', '0', '0']
      = ([c9, c10, ':', c11, c12, ':', c13, c14], some (1, ['0', '0', ':', '0', '0'])) := by
    rw [splitTz_cons_digit hc9, splitTz_cons_digit hc10,
      splitTz_cons_ne ':' (by decide) (by decide),
      splitTz_cons_digit hc11, splitTz_cons_digit hc12,
      splitTz_cons_ne ':' (by decide) (by decide),
      splitTz_cons_digit hc13, splitTz_cons_digit hc14]
    simp [splitTz]
  have htime : parseTimePart [c9, c10, ':', c11, c12, ':', c13, c14]
      = some (10 * v9 + v10, 10 * v11 + v12, 10 * v13 + v14, 0) := by
    simp [parseTimePart, twoDigitVal_eq hc9 hc10, twoDigitVal_eq hc11 hc12,
      twoDigitVal_eq hc13 hc14, hho, hmi, hse]
  have hoff : parseOffsetPart 1 ['0', '0', ':', '0', '0'] = some 0 := by decide
  simp only [parse_date, if_neg hne]
  show fromisoChars (replaceZChars [c1, c2, c3, c4, '-', c5, c6, '-', c7, c8, 'T',
      c9, c10, ':', c11, c12, ':', c13, c14, 'Z']) = _
  rw [hrep]
  simp only [fromisoChars, hdate, hsplit, htime, hoff]
  simp

/-- C8 witness: the amended statement at a raw record with every nested
field absent and at the concrete date string `"2024-01-15T10:30:00Z"`. -/
theorem normalization_total_defaults_witness :
    ((⟨"1", "DP-1", emptyFields⟩ : RawIssue).fields.statusName = none →
      (normalizeIssue ⟨"1", "DP-1", emptyFields⟩).status = "") ∧
    ((⟨"1", "DP-1", emptyFields⟩ : RawIssue).fields.priorityName = none →
      (normalizeIssue ⟨"1", "DP-1", emptyFields⟩).priority = "") ∧
    ((⟨"1", "DP-1", emptyFields⟩ : RawIssue).fields.issuetypeName = none →
      (normalizeIssue ⟨"1", "DP-1", emptyFields⟩).issuetype = "") ∧
    ((⟨"1", "DP-1", emptyFields⟩ : RawIssue).fields.assigneeDisplayName = none →
      (normalizeIssue ⟨"1", "DP-1", emptyFields⟩).assignee = "" ∧
      (normalizeIssue ⟨"1", "DP-1", emptyFields⟩).assigned_to = "Unassigned") ∧
    parse_date none = none ∧
    parse_date (some "") = none ∧
    parse_date (some "not-a-date") = none ∧
    parse_date (some ⟨['2', '0', '2', '4', '-', '0', '1', '-', '1', '5', 'T',
        '1', '0', ':', '3', '0', ':', '0', '0', 'Z']⟩)
      = some ⟨1000 * 2 + 100 * 0 + 10 * 2 + 4, 10 * 0 + 1, 10 * 1 + 5,
          10 * 1 + 0, 10 * 3 + 0, 10 * 0 + 0, 0, some 0⟩ :=
  normalization_total_defaults ⟨"1", "DP-1", emptyFields⟩
    '2' '0' '2' '4' '0' '1' '1' '5' '1' '0' '3' '0' '0' '0'
    2 0 2 4 0 1 1 5 1 0 3 0 0 0
    rfl rfl rfl rfl rfl rfl rfl rfl rfl rfl rfl rfl rfl rfl
    (by decide) (by decide) (by decide) (by decide) (by decide)

end JiraSync
